import Mathlib

/-!
Shallow embedding of `src/webapplication.cpp` (class `luna::WebApplication`)
from the luna-webappmanager repository, together with theorems checking the
natural-language specification against it.

The embedding follows the source file: JSON replies from the activity
manager are modelled as already-parsed documents (Qt's `QJsonDocument` parse
step is external library code), the asynchronous bus (`LSCall…`) is modelled
by an explicit outcome oracle passed to each operation that issues a call,
and each operation returns the updated object state together with its
externally observable effects (issued bus requests, injected scripts,
emitted notifications).
-/

namespace luna

/-- Sentinel token value LSMESSAGE_TOKEN_INVALID from luna-service2. -/
def LSMESSAGE_TOKEN_INVALID : Nat := 0

/-- Subset of `QJsonValue` needed by the replies handled in the source.
jnull also stands for QJsonValue::Undefined returned by
QJsonObject::value on a missing key (both are non-bool, non-number). -/
inductive JValue where
  | jbool (b : Bool)
  | jnum (x : Int)
  | jstr (s : String)
  | jnull
  deriving DecidableEq, Repr

/-- Model of QJsonValue::isBool(). -/
def JValue.isBool : JValue → Bool
  | .jbool _ => true
  | _ => false

/-- Model of QJsonValue::toBool() with its default: non-booleans convert to false. -/
def JValue.toBool : JValue → Bool
  | .jbool b => b
  | _ => false

/-- Model of QJsonValue::toDouble() with its default: non-numbers convert to 0.
The replies the claims exercise carry integral values, so numbers are
modelled as integers and the C cast `(int)` at the use site is the
identity on them. -/
def JValue.toDouble : JValue → Int
  | .jnum x => x
  | _ => 0

/-- Model of a QJsonObject: association list of fields. -/
def JObject := List (String × JValue)

/-- Model of QJsonObject::contains. -/
def JObject.contains (o : JObject) (key : String) : Bool :=
  o.any (fun f => f.1 == key)

/-- Model of QJsonObject::value: the field's value, or undefined (here jnull)
when the key is absent. -/
def JObject.value (o : JObject) (key : String) : JValue :=
  match o.find? (fun f => f.1 == key) with
  | some f => f.2
  | none => .jnull

/-- A parsed QJsonDocument: either not an object (document.isObject()
returns false) or a root object. -/
inductive JDoc where
  | notObject
  | obj (root : JObject)

/-- Model of `QString::arg` for a format string whose only place marker is
`%1` (the case in the source): every occurrence of the marker is replaced by the
argument, which is inserted verbatim and not rescanned. -/
def qArgAux (a : List Char) : List Char → List Char
  | '%' :: '1' :: rest => a ++ qArgAux a rest
  | c :: rest => c :: qArgAux a rest
  | [] => []

/-- Application of qArgAux: fmt.arg(a) for a single-marker format string. -/
def qArg (fmt a : String) : String :=
  String.mk (qArgAux a.data fmt.data)

/-- Modelled from the spec: the class `WebApplicationWindow` lives in
`webapplicationwindow.cpp`, which is not among the given sources; only its
construction signature WebApplicationWindow(app, url, windowType, headless)
and the calls show() / executeScript(script) appear in the given code.
Per the spec (section 4.3), show makes a window visible, as a no-op when the
window is the headless primary surface; executeScript injects one script
into the window's runtime context (recorded here in order). -/
structure WebApplicationWindow where
  url : String
  windowType : String
  headless : Bool
  visible : Bool
  injectedScripts : List String
  deriving DecidableEq, Repr

/-- Modelled from the spec: construction of a window; windows start not yet
visible and with no injected scripts. -/
def WebApplicationWindow.create (url windowType : String) (headless : Bool) :
    WebApplicationWindow :=
  { url := url, windowType := windowType, headless := headless,
    visible := false, injectedScripts := [] }

/-- Modelled from the spec: show() makes the window visible unless it is
headless. -/
def WebApplicationWindow.show' (w : WebApplicationWindow) : WebApplicationWindow :=
  if w.headless then w else { w with visible := true }

/-- Modelled from the spec: executeScript(script) injects one script into
the window's runtime context. -/
def WebApplicationWindow.executeScript (w : WebApplicationWindow) (script : String) :
    WebApplicationWindow :=
  { w with injectedScripts := w.injectedScripts ++ [script] }

/-- The fields of ApplicationDescription that WebApplication reads. -/
structure ApplicationDescription where
  id : String
  headless : Bool
  deriving DecidableEq, Repr

/-- State of one luna::WebApplication object: the member variables of the
class, with the main window inlined. -/
structure WebApplication where
  mDescription : ApplicationDescription
  mProcessId : String
  mActivityManagerToken : Nat
  mIdentifier : String
  mActivityId : Int
  mReady : Bool
  mParameters : String
  mMainWindow : WebApplicationWindow
  deriving DecidableEq, Repr

/-- Outcome of one asynchronous bus call issue (LSCallFromApplication):
either it dispatched and wrote a fresh token through the out parameter, or
it failed (the source then logs and frees the error). -/
inductive LSCallResult where
  | ok (token : Nat)
  | err
  deriving DecidableEq, Repr

/-- Model of WebApplication::createActivity: no-op (with a warning) when a token is
already outstanding; otherwise issues the registration call, recording the
fresh token on success and leaving state untouched on dispatch failure. -/
def WebApplication.createActivity (app : WebApplication) (call : LSCallResult) :
    WebApplication :=
  if app.mActivityManagerToken ≠ LSMESSAGE_TOKEN_INVALID then
    app
  else
    match call with
    | .ok token => { app with mActivityManagerToken := token }
    | .err => app

/-- The constructor WebApplication::WebApplication: initializes the member
variables (token invalid, mActivityId = -1, mReady = false,
mIdentifier = desc.id() + "-" + processId), creates the main window, and
calls createActivity (whose bus dispatch outcome is the oracle call). -/
def WebApplication.construct (url windowType : String) (desc : ApplicationDescription)
    (parameters processId : String) (call : LSCallResult) : WebApplication :=
  let app : WebApplication :=
    { mDescription := desc
      mProcessId := processId
      mActivityManagerToken := LSMESSAGE_TOKEN_INVALID
      mIdentifier := desc.id ++ "-" ++ processId
      mActivityId := -1
      mReady := false
      mParameters := parameters
      mMainWindow := WebApplicationWindow.create url windowType desc.headless }
  app.createActivity call

/-- Model of WebApplication::setActivityId: unconditional store. -/
def WebApplication.setActivityId (app : WebApplication) (activityId : Int) :
    WebApplication :=
  { app with mActivityId := activityId }

/-- Observable outcome of one run of the reply callback: which log line it
produced, or that it stored an activity id. -/
inductive CallbackOutcome where
  | malformedLog
  | failureLog
  | assigned
  deriving DecidableEq, Repr

/-- Model of WebApplication::activityManagerCallback, line for line: reject
non-objects; reject when returnValue is absent OR boolean-typed (the
source condition (not contains) or isBool, exactly as written); convert
returnValue with toBool; on false log a failure; require activityId;
otherwise store the int cast of toDouble of the activityId field. -/
def WebApplication.activityManagerCallback (app : WebApplication) (doc : JDoc) :
    WebApplication × CallbackOutcome :=
  match doc with
  | .notObject => (app, .malformedLog)
  | .obj root =>
    if !(root.contains "returnValue") || (root.value "returnValue").isBool then
      (app, .malformedLog)
    else
      let returnValue := (root.value "returnValue").toBool
      if !returnValue then
        (app, .failureLog)
      else if !(root.contains "activityId") then
        (app, .malformedLog)
      else
        (app.setActivityId ((root.value "activityId").toDouble), .assigned)

/-- Delivery of a bus reply carrying a correlation token: the callback body
never reads the message's token, so delivery forwards to
`activityManagerCallback` regardless of `replyToken`. -/
def WebApplication.deliverReply (app : WebApplication) (replyToken : Nat) (doc : JDoc) :
    WebApplication × CallbackOutcome :=
  let _ := replyToken
  app.activityManagerCallback doc

/-- Model of WebApplication::destroyActivity: no-op when the token is the invalid
sentinel; otherwise issues LSCallCancel (outcome oracle cancelOk); on
failure it logs and returns early, on success it resets the token to the
sentinel. The field mActivityId is not touched on either path. -/
def WebApplication.destroyActivity (app : WebApplication) (cancelOk : Bool) :
    WebApplication :=
  if app.mActivityManagerToken = LSMESSAGE_TOKEN_INVALID then
    app
  else if !cancelOk then
    app
  else
    { app with mActivityManagerToken := LSMESSAGE_TOKEN_INVALID }

/-- A focus/unfocus bus request as built by `changeActivityFocus`: the
endpoint method and the `activityId` payload field. -/
structure FocusRequest where
  method : String
  activityId : Int
  deriving DecidableEq, Repr

/-- Model of WebApplication::changeActivityFocus: returns early when
mActivityId is negative, otherwise issues one fire-and-forget request to the
focus or unfocus endpoint carrying mActivityId. The member state is
never mutated. -/
def WebApplication.changeActivityFocus (app : WebApplication) (focus : Bool) :
    Option FocusRequest :=
  if app.mActivityId < 0 then
    none
  else
    some { method := "palm://com.palm.activitymanager/" ++
             (if focus then "focus" else "unfocus")
           activityId := app.mActivityId }

/-- Model of WebApplication::run: shows the main window unless headless. -/
def WebApplication.run (app : WebApplication) : WebApplication :=
  if app.mDescription.headless then app
  else { app with mMainWindow := app.mMainWindow.show' }

/-- Model of WebApplication::relaunch: stores the parameters and injects the script
built by arg substitution of the parameters into the relaunch format string. -/
def WebApplication.relaunch (app : WebApplication) (parameters : String) :
    WebApplication :=
  { app with
    mParameters := parameters
    mMainWindow :=
      app.mMainWindow.executeScript (qArg "_webOS.relaunch(\"%1\");" parameters) }

/-- Model of WebApplication::createWindow: builds a new window for the requested
url with window type card and headless = false (child windows can
never be headless), shows it, and hands it to the rendering layer; the
WebApplication members are not mutated. -/
def WebApplication.createWindow (app : WebApplication) (requestUrl : String) :
    WebApplicationWindow :=
  let _ := app
  (WebApplicationWindow.create requestUrl "card" false).show'

/-- Model of WebApplication::stagePreparing: mReady = false. -/
def WebApplication.stagePreparing (app : WebApplication) : WebApplication :=
  { app with mReady := false }

/-- Model of WebApplication::stageReady: sets mReady = true and emits
readyChanged(); the second component counts the notifications emitted by
this call. -/
def WebApplication.stageReady (app : WebApplication) : WebApplication × Nat :=
  ({ app with mReady := true }, 1)

/-- Iterated stageReady: n consecutive calls; the second component is the total
number of readyChanged() notifications emitted. -/
def WebApplication.stageReadyN (app : WebApplication) : Nat → WebApplication × Nat
  | 0 => (app, 0)
  | n + 1 =>
    let first := app.stageReady
    let rest := first.1.stageReadyN n
    (rest.1, first.2 + rest.2)

/-- Accessor WebApplication::id. -/
def WebApplication.id (app : WebApplication) : String :=
  app.mDescription.id

/-- Accessor WebApplication::identifier. -/
def WebApplication.identifier (app : WebApplication) : String :=
  app.mIdentifier

/-- Accessor WebApplication::activityId. -/
def WebApplication.activityId (app : WebApplication) : Int :=
  app.mActivityId

/-- Accessor WebApplication::ready. -/
def WebApplication.ready (app : WebApplication) : Bool :=
  app.mReady

/-- Accessor WebApplication::parameters. -/
def WebApplication.parameters (app : WebApplication) : String :=
  app.mParameters

/-- Accessor WebApplication::headless. -/
def WebApplication.headless (app : WebApplication) : Bool :=
  app.mDescription.headless


/-! ## Shared fixtures and helper lemmas -/

/-- Concrete application description used in the scenarios. -/
def descExample : ApplicationDescription :=
  { id := "com.example.app", headless := false }

/-- Concrete instance from the scenario: appId "com.example.app", processId
"123", registration call dispatched with fresh token 1. -/
def appExample : WebApplication :=
  WebApplication.construct "file:///usr/palm/applications/com.example.app/index.html"
    "card" descExample "" "123" (.ok 1)

/-- The reply callback never mutates the instance: its success branch
requires a returnValue field that is not boolean-typed (line 86 of the
source) yet converts to true under toBool, which is impossible, so every
run of the callback returns the state unchanged. -/
theorem activityManagerCallback_fst (app : WebApplication) (doc : JDoc) :
    (app.activityManagerCallback doc).1 = app := by
  cases doc with
  | notObject => rfl
  | obj root =>
    simp only [WebApplication.activityManagerCallback]
    split
    · rfl
    · next h =>
      cases hv : root.value "returnValue" with
      | jbool b => exact absurd (by simp [hv, JValue.isBool]) h
      | jnum x => simp [hv, JValue.toBool]
      | jstr s => simp [hv, JValue.toBool]
      | jnull => simp [hv, JValue.toBool]

/-- Substituting the argument into the relaunch format string yields the
plain concatenation around it. -/
theorem qArg_relaunch_eq (p : String) :
    qArg "_webOS.relaunch(\"%1\");" p = "_webOS.relaunch(\"" ++ p ++ "\");" := by
  cases p with
  | mk l => rfl

/-! ## Claim theorems -/

/-- The well-formed successful registration reply of the scenario:
returnValue true, activityId 42. -/
def replyC1 : JDoc :=
  JDoc.obj [("returnValue", JValue.jbool true), ("activityId", JValue.jnum 42)]

/-- C1: delivering the well-formed successful reply with returnValue true
and activityId 42 for the matching token should set the instance's
activityId to 42 from the unset sentinel -1; the code instead classifies
the reply as malformed (its validity check on line 86 treats a
boolean-typed returnValue as malformed) and leaves activityId at -1. -/
theorem C1_code_rejects_wellformed_success_reply :
    appExample.mActivityId = -1 ∧
    appExample.deliverReply appExample.mActivityManagerToken replyC1 =
      (appExample, CallbackOutcome.malformedLog) ∧
    (appExample.deliverReply appExample.mActivityManagerToken replyC1).1.mActivityId ≠ 42 := by
  refine ⟨rfl, rfl, by decide⟩

/-- C2 counterexample: two consecutive stageReady() calls emit two ready
notifications, not exactly one as the claim states. -/
theorem C2_counterexample : (appExample.stageReadyN 2).2 ≠ 1 := by decide

/-- C2 (amended): stageReady() sets mReady and emits the ready notification
unconditionally on every call, so N consecutive calls emit exactly N
notifications (not one); stagePreparing() resets mReady to Preparing, after
which stageReady() emits again. -/
theorem C2_amended_ready_notification_count (app : WebApplication) (n : Nat) :
    (app.stageReadyN n).2 = n ∧
    app.stagePreparing.mReady = false ∧
    (app.stagePreparing.stageReady).1.mReady = true ∧
    (app.stagePreparing.stageReady).2 = 1 := by
  refine ⟨?_, rfl, rfl, rfl⟩
  induction n generalizing app with
  | zero => rfl
  | succ k ih =>
    simp [WebApplication.stageReadyN, WebApplication.stageReady, ih]
    omega

/-- Concrete non-Idle registrar state: outstanding token 1, activityId 7. -/
def appC3 : WebApplication := appExample.setActivityId 7

/-- C3 counterexample: on a non-Idle registrar, a failed transport
cancellation leaves the correlation token outstanding rather than resetting
it to the invalid sentinel, and even a successful cancellation leaves the
activity identifier uncleared. -/
theorem C3_counterexample :
    appC3.mActivityManagerToken ≠ LSMESSAGE_TOKEN_INVALID ∧
    (appC3.destroyActivity false).mActivityManagerToken ≠ LSMESSAGE_TOKEN_INVALID ∧
    (appC3.destroyActivity true).mActivityId = 7 := by
  decide

/-- C3 (amended): destroyActivity on an Idle registrar is a no-op; on a
non-Idle registrar a successful transport cancellation resets only the
token to the invalid sentinel while the activity identifier is not
cleared, and a failed cancellation logs and leaves all state unchanged. -/
theorem C3_amended_destroyActivity (app : WebApplication) (cancelOk : Bool) :
    (app.mActivityManagerToken = LSMESSAGE_TOKEN_INVALID →
      app.destroyActivity cancelOk = app) ∧
    (app.mActivityManagerToken ≠ LSMESSAGE_TOKEN_INVALID →
      app.destroyActivity true =
        { app with mActivityManagerToken := LSMESSAGE_TOKEN_INVALID } ∧
      (app.destroyActivity true).mActivityId = app.mActivityId ∧
      app.destroyActivity false = app) := by
  constructor
  · intro h
    simp [WebApplication.destroyActivity, h]
  · intro h
    refine ⟨?_, ?_, ?_⟩ <;> simp [WebApplication.destroyActivity, h]

/-- Witness for C3 (amended) at the concrete non-Idle state appC3. -/
theorem C3_amended_witness :
    appC3.destroyActivity true =
      { appC3 with mActivityManagerToken := LSMESSAGE_TOKEN_INVALID } ∧
    appC3.destroyActivity false = appC3 :=
  ⟨((C3_amended_destroyActivity appC3 true).2 (by decide)).1,
   ((C3_amended_destroyActivity appC3 false).2 (by decide)).2.2⟩

/-- C4: a reply delivered with a correlation token different from the
instance's outstanding token never mutates activityId or any other
instance state (the callback, as written, returns the state unchanged for
every reply and reads no token at all). -/
theorem C4_mismatched_token_reply_no_mutation (app : WebApplication)
    (replyToken : Nat) (doc : JDoc)
    (_h : replyToken ≠ app.mActivityManagerToken) :
    (app.deliverReply replyToken doc).1 = app :=
  activityManagerCallback_fst app doc

/-- Witness for C4: a stale token 99 against the outstanding token 1. -/
theorem C4_witness :
    (99 : Nat) ≠ appExample.mActivityManagerToken ∧
    (appExample.deliverReply 99 (JDoc.obj [])).1 = appExample :=
  ⟨by decide,
   C4_mismatched_token_reply_no_mutation appExample 99 (JDoc.obj []) (by decide)⟩

/-- C5: createActivity while a registration is already outstanding or
active (token not the invalid sentinel) logs a warning and is a no-op,
leaving the existing token and all other state unchanged, so at most one
outstanding token exists at any time. -/
theorem C5_duplicate_createActivity_noop (app : WebApplication)
    (call : LSCallResult)
    (h : app.mActivityManagerToken ≠ LSMESSAGE_TOKEN_INVALID) :
    app.createActivity call = app := by
  simp [WebApplication.createActivity, h]

/-- Witness for C5: a second registration attempt on appExample (token 1)
is a no-op. -/
theorem C5_witness :
    appExample.mActivityManagerToken ≠ LSMESSAGE_TOKEN_INVALID ∧
    appExample.createActivity (.ok 2) = appExample :=
  ⟨by decide, C5_duplicate_createActivity_noop appExample (.ok 2) (by decide)⟩

/-- C6: the identifier established at construction equals
appId ++ "-" ++ processId (concretely, "com.example.app" and "123" yield
"com.example.app-123"), and no operation after construction changes it. -/
theorem C6_identifier_immutable (url windowType : String)
    (desc : ApplicationDescription) (params pid : String) (call : LSCallResult) :
    (WebApplication.construct url windowType desc params pid call).identifier =
      desc.id ++ "-" ++ pid ∧
    appExample.identifier = "com.example.app-123" ∧
    ∀ (app : WebApplication) (v : Int) (c : LSCallResult) (doc : JDoc)
      (tok : Nat) (ok : Bool) (p : String),
      (app.setActivityId v).identifier = app.identifier ∧
      ((app.deliverReply tok doc).1).identifier = app.identifier ∧
      (app.createActivity c).identifier = app.identifier ∧
      (app.destroyActivity ok).identifier = app.identifier ∧
      app.run.identifier = app.identifier ∧
      (app.relaunch p).identifier = app.identifier ∧
      app.stagePreparing.identifier = app.identifier ∧
      (app.stageReady).1.identifier = app.identifier := by
  refine ⟨?_, by decide, ?_⟩
  · cases call <;>
      simp [WebApplication.construct, WebApplication.createActivity,
        WebApplication.identifier, LSMESSAGE_TOKEN_INVALID]
  · intro app v c doc tok ok p
    refine ⟨rfl, ?_, ?_, ?_, ?_, rfl, rfl, rfl⟩
    · exact congrArg WebApplication.identifier (activityManagerCallback_fst app doc)
    · simp only [WebApplication.createActivity]
      split
      · rfl
      · cases c <;> rfl
    · simp only [WebApplication.destroyActivity]
      split
      · rfl
      · split <;> rfl
    · simp only [WebApplication.run]
      split <;> rfl

/-- C7: relaunch(p) stores p as the parameters, injects exactly one script
into the primary window, that script contains p, and readiness,
activityId, the correlation token, and the window identity are unchanged
(no window is recreated). -/
theorem C7_relaunch_updates_parameters_and_injects_once
    (app : WebApplication) (p : String) :
    (app.relaunch p).parameters = p ∧
    (app.relaunch p).mMainWindow.injectedScripts =
      app.mMainWindow.injectedScripts ++ [qArg "_webOS.relaunch(\"%1\");" p] ∧
    (∃ pre post : String,
      qArg "_webOS.relaunch(\"%1\");" p = pre ++ p ++ post) ∧
    (app.relaunch p).ready = app.ready ∧
    (app.relaunch p).activityId = app.activityId ∧
    (app.relaunch p).mActivityManagerToken = app.mActivityManagerToken ∧
    (app.relaunch p).identifier = app.identifier ∧
    (app.relaunch p).mMainWindow.url = app.mMainWindow.url ∧
    (app.relaunch p).mMainWindow.windowType = app.mMainWindow.windowType ∧
    (app.relaunch p).mMainWindow.headless = app.mMainWindow.headless ∧
    (app.relaunch p).mMainWindow.visible = app.mMainWindow.visible := by
  refine ⟨rfl, rfl, ⟨"_webOS.relaunch(\"", "\");", qArg_relaunch_eq p⟩,
    rfl, rfl, rfl, rfl, rfl, rfl, rfl, rfl⟩

/-- C8: every secondary window created by createWindow is constructed with
headless = false and shown immediately, whatever the owning instance's
headless flag (app is arbitrary here, headless instances included). -/
theorem C8_secondary_window_visible_nonheadless (app : WebApplication)
    (requestUrl : String) :
    (app.createWindow requestUrl).headless = false ∧
    (app.createWindow requestUrl).visible = true ∧
    (app.createWindow requestUrl).windowType = "card" ∧
    (app.createWindow requestUrl).url = requestUrl := by
  refine ⟨rfl, ?_, rfl, rfl⟩
  simp [WebApplication.createWindow, WebApplicationWindow.create,
    WebApplicationWindow.show']

/-- C9: the injected relaunch script is exactly the literal prefix, then
the parameters verbatim and unescaped, then the literal suffix; concretely
a parameter containing a double quote and a backslash appears unescaped
inside the script's string literal. -/
theorem C9_relaunch_script_verbatim (app : WebApplication) (p : String) :
    (app.relaunch p).mMainWindow.injectedScripts =
      app.mMainWindow.injectedScripts ++ ["_webOS.relaunch(\"" ++ p ++ "\");"] ∧
    qArg "_webOS.relaunch(\"%1\");" "a\"b\\c" = "_webOS.relaunch(\"a\"b\\c\");" := by
  refine ⟨?_, rfl⟩
  simp [WebApplication.relaunch, WebApplicationWindow.executeScript, qArg_relaunch_eq]

/-- C10: changeActivityFocus issues a bus request exactly when the stored
activityId is nonnegative; setActivityId stores its argument
unconditionally; a stored negative value leaves every focus and unfocus
operation a no-op, indistinguishable from the never-assigned sentinel -1. -/
theorem C10_focus_gated_on_nonnegative_activityId
    (app : WebApplication) (v : Int) (focus : Bool) :
    ((app.changeActivityFocus focus).isSome ↔ 0 ≤ app.mActivityId) ∧
    (app.setActivityId v).mActivityId = v ∧
    (v < 0 →
      (app.setActivityId v).changeActivityFocus focus = none ∧
      (app.setActivityId v).changeActivityFocus focus =
        (app.setActivityId (-1)).changeActivityFocus focus) := by
  refine ⟨?_, rfl, ?_⟩
  · by_cases h : app.mActivityId < 0 <;>
      simp [WebApplication.changeActivityFocus, h] <;> omega
  · intro hv
    constructor
    · simp [WebApplication.setActivityId, WebApplication.changeActivityFocus, hv]
    · simp [WebApplication.setActivityId, WebApplication.changeActivityFocus, hv]

/-- Witness for C10: storing -5 makes focus a no-op, same as -1. -/
theorem C10_witness :
    (appExample.setActivityId (-5)).changeActivityFocus true = none ∧
    (appExample.setActivityId (-5)).changeActivityFocus true =
      (appExample.setActivityId (-1)).changeActivityFocus true :=
  (C10_focus_gated_on_nonnegative_activityId appExample (-5) true).2.2 (by decide)

end luna
